import Mathlib

set_option maxRecDepth 8000

/-!
Verification development for the Hypervault plugin.

The file embeds, as executable Lean definitions, the parts of the code that
the specification's testable properties talk about:

* `BinPacker` (layout engine: `packDistricts`, `calculateDistrictBounds`,
  `arrangeGridLayout`, `calculateHeight`, `hashCategory`),
* `ProjectParser.normalizePriority`,
* `DataArtery` lifecycle flags and `ArteryManager`
  (`spawnArtery` / `startStream` / `stopStream` / `update` / `getCityState` /
  `dispose`),
* `ActivityMonitor.poll`.

Numbers are modelled as `ℚ` (layout geometry) and `Int` (timestamps in
milliseconds); JavaScript 32-bit coercion in the category hash is modelled
explicitly by `toInt32`.  Rendering-only effects (Three.js scene mutation,
shader uniform writes, colors, geometry) are outside the model; the booleans
and collections that drive the lifecycle logic are kept exactly as in the
source.
-/

/-- Two's-complement 32-bit truncation: the `ToInt32` coercion JavaScript
applies to the operand and result of the `<<` operator. -/
def toInt32 (n : Int) : Int :=
  let m := n % 4294967296
  if m ≥ 2147483648 then m - 4294967296 else m

/-- One step of the rolling category hash.  Source (BinPacker.hashCategory):
`hash = ((hash << 5) - hash) + category.charCodeAt(i)`.  The shift coerces to
a signed 32-bit integer (`toInt32 (h * 32)` is equal to it since
`h * 32 ≡ ToInt32(h) << 5 (mod 2^32)`), while the subtraction and addition are
exact double-precision integer arithmetic. -/
def hashStep (h : Int) (c : Char) : Int :=
  toInt32 (h * 32) - h + c.toNat

/-- BinPacker.hashCategory: rolling hash over the characters, then
`Math.abs(hash % 10)`.  For JavaScript's truncating remainder,
`Math.abs(x % 10) = |x| % 10`, which is `x.natAbs % 10` here. -/
def hashCategory (category : String) : Nat :=
  (category.data.foldl hashStep 0).natAbs % 10

/-- Axis-aligned district bounds (x/z anchor plus width/depth). -/
structure Bounds where
  x : ℚ
  z : ℚ
  width : ℚ
  depth : ℚ
deriving DecidableEq

/-- A building position on the ground plane (y is fixed at 0 by the layout). -/
structure Pos where
  x : ℚ
  y : ℚ
  z : ℚ
deriving DecidableEq

/-- Building dimensions assigned by the layout. -/
structure Dimensions where
  width : ℚ
  height : ℚ
  depth : ℚ
deriving DecidableEq

/-- The fields of a ProjectData record that BinPacker reads.  Fields the
layout does not read (title, status, lastModified, health, …) are omitted. -/
structure ProjectData where
  path : String
  stage : String
  category : String
  priority : String
  scope : ℚ
deriving DecidableEq

/-- A project record after the layout has assigned `position` and
`dimensions` (the source mutates the record in place; the model pairs the
input record with the two assigned fields). -/
structure PlacedBuilding where
  project : ProjectData
  position : Pos
  dimensions : Dimensions
deriving DecidableEq

/-- A district before its buildings are arranged. -/
structure District where
  stage : String
  category : String
  buildings : List ProjectData
  bounds : Bounds
deriving DecidableEq

/-- A district after `arrangeGridLayout` has placed its buildings. -/
structure PlacedDistrict where
  stage : String
  category : String
  buildings : List PlacedBuilding
  bounds : Bounds
deriving DecidableEq

namespace BinPacker

/-- `private districtSize = 20`. -/
def districtSize : ℚ := 20

/-- `private buildingSpacing = 1.5`. -/
def buildingSpacing : ℚ := 3 / 2

/-- `private buildingsPerRow = 5`. -/
def buildingsPerRow : Nat := 5

/-- BinPacker.calculateDistrictBounds: stage → fixed x offset via an object
literal with `|| 0` fallback (the `'active': 0` entry is falsy in JS, but
`|| 0` yields 0 there as well, so a total match is faithful); category → z
offset from the lane hash. -/
def calculateDistrictBounds (stage category : String) : Bounds :=
  let stageX : ℚ :=
    if stage = "backlog" then -30
    else if stage = "active" then 0
    else if stage = "paused" then 15
    else if stage = "complete" then 30
    else 0
  let categoryZ : ℚ := (hashCategory category : ℚ) * 20 - 10
  { x := stageX, z := categoryZ, width := districtSize, depth := districtSize }

/-- Rational model of `Math.sqrt`.  Exact whenever the argument is a ratio of
perfect squares; every scope appearing in a concrete theorem below is a
perfect-square natural number, on which IEEE-754 `Math.sqrt` is also exact.
No theorem in this file depends on its value at other points. -/
def sqrtQ (q : ℚ) : ℚ := (Nat.sqrt q.num.toNat : ℚ) / (Nat.sqrt q.den : ℚ)

/-- BinPacker.calculateHeight: quantized story count per priority tier
(object-literal lookup with `|| 2` fallback; all four tier values are
truthy) times the per-story unit height of 2. -/
def calculateHeight (priority : String) : ℚ :=
  let storyHeight : ℚ := 2
  let stories : ℚ :=
    if priority = "critical" then 8
    else if priority = "high" then 5
    else if priority = "medium" then 3
    else if priority = "low" then 1
    else 2
  stories * storyHeight

/-- Placement of one building at a given forEach index inside district
bounds: row/column from the index, footprint
`Math.max(2, Math.sqrt(scope) * 0.5)`, position = district anchor + grid
cell offset, quantized height. -/
def placeBuilding (bounds : Bounds) (index : Nat) (b : ProjectData) : PlacedBuilding :=
  let row : Nat := index / buildingsPerRow
  let col : Nat := index % buildingsPerRow
  let baseSize : ℚ := max 2 (sqrtQ b.scope * (1 / 2))
  { project := b
    position :=
      { x := bounds.x + (col : ℚ) * (baseSize + buildingSpacing)
        y := 0
        z := bounds.z + (row : ℚ) * (baseSize + buildingSpacing) }
    dimensions :=
      { width := baseSize, height := calculateHeight b.priority, depth := baseSize } }

/-- The `buildings.forEach((building, index) => …)` loop of
BinPacker.arrangeGridLayout, with the running index made explicit. -/
def placeAll (bounds : Bounds) (index : Nat) : List ProjectData → List PlacedBuilding
  | [] => []
  | p :: rest => placeBuilding bounds index p :: placeAll bounds (index + 1) rest

/-- BinPacker.arrangeGridLayout: arrange a district's members on the
5-column grid in list (insertion) order. -/
def arrangeGridLayout (d : District) : PlacedDistrict :=
  { stage := d.stage, category := d.category, bounds := d.bounds
    buildings := placeAll d.bounds 0 d.buildings }

/-- The grouping key `` `${project.stage}_${project.category}` ``. -/
def districtKey (p : ProjectData) : String := p.stage ++ "_" ++ p.category

/-- One iteration of the grouping loop in BinPacker.packDistricts: insert the
project into its district, creating the district (at the end, preserving Map
insertion order) if absent. -/
def addProject (ds : List (String × District)) (p : ProjectData) : List (String × District) :=
  if ds.any (fun kd => kd.1 = districtKey p) then
    ds.map (fun kd =>
      if kd.1 = districtKey p then
        (kd.1, { kd.2 with buildings := kd.2.buildings ++ [p] })
      else kd)
  else
    ds ++ [(districtKey p,
      { stage := p.stage, category := p.category, buildings := [p]
        bounds := calculateDistrictBounds p.stage p.category })]

/-- BinPacker.packDistricts: group projects by (stage, category) into an
insertion-ordered map, then arrange each district's grid.  The JS `Map` is
modelled as an insertion-ordered association list. -/
def packDistricts (projects : List ProjectData) : List (String × PlacedDistrict) :=
  (projects.foldl addProject []).map (fun kd => (kd.1, arrangeGridLayout kd.2))

/-- Look a placed building up by project path across all districts. -/
def findPlaced (path : String) (ds : List (String × PlacedDistrict)) : Option PlacedBuilding :=
  ds.foldl (fun acc kd => acc <|> kd.2.buildings.find? (fun b => b.project.path = path)) none

/-- Formalization of the spec's no-overlap notion for zones: after padding
each bounds rectangle by `clearance` on every side, the two rectangles are
disjoint (separated on at least one axis). -/
def paddedBoundsDisjoint (clearance : ℚ) (a b : Bounds) : Prop :=
  a.x + a.width + 2 * clearance < b.x ∨ b.x + b.width + 2 * clearance < a.x ∨
  a.z + a.depth + 2 * clearance < b.z ∨ b.z + b.depth + 2 * clearance < a.z

instance (c : ℚ) (a b : Bounds) : Decidable (paddedBoundsDisjoint c a b) := by
  unfold paddedBoundsDisjoint; infer_instance

end BinPacker

namespace ProjectParser

/-- ProjectParser.normalizePriority.  `none` models an absent frontmatter
field; the explicit empty-string branch models JS falsiness of `""` in
`if (!raw)`.  `toLower`/`trim` model `toLowerCase().trim()` (identical on
the ASCII keys being compared against). -/
def normalizePriority (raw : Option String) : String :=
  match raw with
  | none => "medium"
  | some r =>
    if r = "" then "medium"
    else
      let lower := r.toLower.trim
      if lower = "critical" then "critical"
      else if lower = "urgent" then "critical"
      else if lower = "high" then "high"
      else if lower = "medium" then "medium"
      else if lower = "normal" then "medium"
      else if lower = "low" then "low"
      else "medium"

end ProjectParser

/-- Every result of normalizePriority is one of the four priority tiers. -/
theorem normalizePriority_mem_tiers (raw : Option String) :
    ProjectParser.normalizePriority raw ∈ ["critical", "high", "medium", "low"] := by
  rcases raw with _ | r
  · simp [ProjectParser.normalizePriority]
  · simp only [ProjectParser.normalizePriority]
    repeat' split
    all_goals simp

/-- calculateHeight maps the four priority tiers to the four story-tier
heights 16, 10, 6, 2. -/
theorem calculateHeight_mem_tiers {p : String}
    (hp : p ∈ ["critical", "high", "medium", "low"]) :
    BinPacker.calculateHeight p ∈ ([16, 10, 6, 2] : List ℚ) := by
  fin_cases hp <;> simp [BinPacker.calculateHeight] <;> norm_num

/-- Every building placed by the forEach loop carries a member of the input
list and a quantized height computed from its own priority. -/
theorem placeAll_mem {bounds : Bounds} :
    ∀ (l : List ProjectData) (i : Nat) (b : PlacedBuilding),
      b ∈ BinPacker.placeAll bounds i l →
      b.project ∈ l ∧ b.dimensions.height = BinPacker.calculateHeight b.project.priority := by
  intro l
  induction l with
  | nil => intro i b hb; simp [BinPacker.placeAll] at hb
  | cons p rest ih =>
    intro i b hb
    simp only [BinPacker.placeAll, List.mem_cons] at hb ⊢
    rcases hb with h | h
    · subst h; exact ⟨Or.inl rfl, rfl⟩
    · obtain ⟨h1, h2⟩ := ih (i + 1) b h
      exact ⟨Or.inr h1, h2⟩

/-- Members of every district produced by the grouping fold satisfy any
predicate holding on the accumulator's members and on the input projects. -/
theorem foldl_addProject_mem {P : ProjectData → Prop} :
    ∀ (projects : List ProjectData) (acc : List (String × District)),
      (∀ kd ∈ acc, ∀ p ∈ kd.2.buildings, P p) →
      (∀ p ∈ projects, P p) →
      ∀ kd ∈ projects.foldl BinPacker.addProject acc, ∀ p ∈ kd.2.buildings, P p := by
  intro projects
  induction projects with
  | nil => intro acc hacc _ kd hkd; exact hacc kd hkd
  | cons q rest ih =>
    intro acc hacc hproj kd hkd
    simp only [List.foldl_cons] at hkd
    refine ih (BinPacker.addProject acc q) ?_
      (fun p hp => hproj p (List.mem_cons_of_mem _ hp)) kd hkd
    intro kd' hkd' p hp
    unfold BinPacker.addProject at hkd'
    split at hkd'
    · obtain ⟨kd₀, hkd₀, rfl⟩ := List.mem_map.mp hkd'
      by_cases hk : kd₀.1 = BinPacker.districtKey q
      · rw [if_pos hk] at hp
        simp only [List.mem_append, List.mem_singleton] at hp
        rcases hp with h | h
        · exact hacc kd₀ hkd₀ p h
        · subst h; exact hproj p (List.mem_cons_self _ _)
      · rw [if_neg hk] at hp
        exact hacc kd₀ hkd₀ p hp
    · rcases List.mem_append.mp hkd' with h | h
      · exact hacc kd' h p hp
      · simp only [List.mem_singleton] at h
        subst h
        simp only [List.mem_singleton] at hp
        subst hp
        exact hproj p (List.mem_cons_self _ _)

/-- C1: no-overlap fails on the code.  The two projects below lie in the same
stage ("active") but in two different categories ("a" and "k") whose lane
hashes collide (both 7), so `packDistricts` produces two distinct districts
with *identical* bounds — their bounds padded by any clearance intersect,
contradicting the claimed no-overlap guarantee. -/
theorem binPacker_zone_overlap_failure :
    (BinPacker.packDistricts
        [⟨"P1", "active", "a", "medium", 16⟩, ⟨"P2", "active", "k", "medium", 16⟩]).map
        (fun kd => (kd.1, kd.2.bounds)) =
      [("active_a", ⟨0, 130, 20, 20⟩), ("active_k", ⟨0, 130, 20, 20⟩)] ∧
    ¬ BinPacker.paddedBoundsDisjoint 0 ⟨0, 130, 20, 20⟩ ⟨0, 130, 20, 20⟩ := by
  constructor
  · have hA : hashCategory "a" = 7 := by decide
    have hK : hashCategory "k" = 7 := by decide
    simp [BinPacker.packDistricts, BinPacker.addProject, BinPacker.districtKey,
      BinPacker.arrangeGridLayout, BinPacker.calculateDistrictBounds, hA, hK,
      BinPacker.districtSize]
    norm_num
  · intro h
    rcases h with h | h | h | h <;> norm_num at h

/-- C4: the layout is not a pure function of the item set — it depends on the
input array order.  The same two projects in the two orders give project "P1"
two different positions (grid cell = index in arrival order; no sort is
applied before placement). -/
theorem binPacker_order_dependence :
    (BinPacker.findPlaced "P1"
        (BinPacker.packDistricts
          [⟨"P1", "active", "a", "medium", 16⟩, ⟨"P2", "active", "a", "medium", 16⟩])).map
        (fun b => b.position) = some ⟨0, 0, 130⟩ ∧
    (BinPacker.findPlaced "P1"
        (BinPacker.packDistricts
          [⟨"P2", "active", "a", "medium", 16⟩, ⟨"P1", "active", "a", "medium", 16⟩])).map
        (fun b => b.position) = some ⟨7 / 2, 0, 130⟩ ∧
    (⟨0, 0, 130⟩ : Pos) ≠ ⟨7 / 2, 0, 130⟩ := by
  have hA : hashCategory "a" = 7 := by decide
  have h16 : Nat.sqrt 16 = 4 := by
    rw [show (16 : ℕ) = 4 * 4 from rfl]; exact Nat.sqrt_eq 4
  refine ⟨?_, ?_, ?_⟩
  · simp [BinPacker.findPlaced, BinPacker.packDistricts, BinPacker.addProject,
      BinPacker.districtKey, BinPacker.arrangeGridLayout, BinPacker.placeAll,
      BinPacker.placeBuilding, BinPacker.calculateDistrictBounds, hA, h16,
      BinPacker.districtSize, BinPacker.buildingSpacing, BinPacker.buildingsPerRow,
      BinPacker.sqrtQ, List.find?]
    norm_num
  · simp [BinPacker.findPlaced, BinPacker.packDistricts, BinPacker.addProject,
      BinPacker.districtKey, BinPacker.arrangeGridLayout, BinPacker.placeAll,
      BinPacker.placeBuilding, BinPacker.calculateDistrictBounds, hA, h16,
      BinPacker.districtSize, BinPacker.buildingSpacing, BinPacker.buildingsPerRow,
      BinPacker.sqrtQ, List.find?]
    norm_num
  · intro h
    have hx := congrArg Pos.x h
    norm_num at hx

/-- C7: height quantization.  Every priority string coming out of
ProjectParser.normalizePriority maps under BinPacker.calculateHeight to one
of the four configured story-tier heights 16, 10, 6, 2; consequently every
building laid out by packDistricts from parser-normalized records has one of
those four heights. -/
theorem binPacker_height_quantization :
    (∀ raw : Option String,
       BinPacker.calculateHeight (ProjectParser.normalizePriority raw) ∈
         ([16, 10, 6, 2] : List ℚ)) ∧
    (∀ projects : List ProjectData,
       (∀ p ∈ projects, ∃ raw, p.priority = ProjectParser.normalizePriority raw) →
       ∀ kd ∈ BinPacker.packDistricts projects, ∀ b ∈ kd.2.buildings,
         b.dimensions.height ∈ ([16, 10, 6, 2] : List ℚ)) := by
  have tier : ∀ raw : Option String,
      BinPacker.calculateHeight (ProjectParser.normalizePriority raw) ∈
        ([16, 10, 6, 2] : List ℚ) :=
    fun raw => calculateHeight_mem_tiers (normalizePriority_mem_tiers raw)
  refine ⟨tier, ?_⟩
  intro projects hnorm kd hkd b hb
  obtain ⟨kd₀, hkd₀, rfl⟩ := List.mem_map.mp hkd
  have hmem := placeAll_mem kd₀.2.buildings 0 b hb
  obtain ⟨hproj, hheight⟩ := hmem
  have hP := foldl_addProject_mem (P := fun p => ∃ raw, p.priority = ProjectParser.normalizePriority raw)
    projects [] (by intro kd hkd; simp at hkd) hnorm kd₀ hkd₀ b.project hproj
  obtain ⟨raw, hraw⟩ := hP
  rw [hheight, hraw]
  exact tier raw

/-- Witness for C7: a concrete priority string and a concrete one-project
layout hit the quantized tiers. -/
theorem binPacker_height_quantization_witness :
    BinPacker.calculateHeight (ProjectParser.normalizePriority (some "HIGH")) ∈
      ([16, 10, 6, 2] : List ℚ) ∧
    (∀ kd ∈ BinPacker.packDistricts [⟨"P1", "active", "a", "medium", 16⟩],
       ∀ b ∈ kd.2.buildings, b.dimensions.height ∈ ([16, 10, 6, 2] : List ℚ)) :=
  ⟨binPacker_height_quantization.1 (some "HIGH"),
   binPacker_height_quantization.2 [⟨"P1", "active", "a", "medium", 16⟩]
     (by
       intro p hp
       simp only [List.mem_singleton] at hp
       subst hp
       exact ⟨none, rfl⟩)⟩

/-- The CityState enum of src/types.ts. -/
inductive CityState
  | IDLE
  | STREAMING
  | BULK_UPDATE
  | ERROR
deriving DecidableEq

/-- Lifecycle state of one DataArtery: the timestamps and booleans that drive
`update` / `fadeOut` / `isComplete`.  Shader uniforms (uTime, uProgress, …),
geometry and color are rendering-only and are not part of the model; the
opacity value written to uProgress never feeds back into the lifecycle
booleans. -/
structure ArteryState where
  startTime : Int
  duration : Int
  isPersistent : Bool
  isFadingOut : Bool
  fadeOutStart : Int
  isFinished : Bool
deriving DecidableEq

namespace ArteryState

/-- `private fadeOutDuration = 500` (ms). -/
def fadeOutDuration : Int := 500

/-- The DataArtery constructor: records `performance.now()` as startTime,
`options.duration ?? 5000`, `options.persistent ?? false`. -/
def create (now : Int) (duration : Int) (persistent : Bool) : ArteryState :=
  { startTime := now, duration := duration, isPersistent := persistent
    isFadingOut := false, fadeOutStart := 0, isFinished := false }

/-- DataArtery.update: returns the new state and the "still active" result.
`fadeProgress >= 1.0` (with `fadeProgress = min(fadeAge / 500, 1)`) is
equivalent to `now - fadeOutStart >= 500`; likewise for the timed branch. -/
def update (now : Int) (a : ArteryState) : ArteryState × Bool :=
  if a.isFinished then (a, false)
  else if a.isFadingOut then
    if now - a.fadeOutStart ≥ fadeOutDuration then ({ a with isFinished := true }, false)
    else (a, true)
  else if a.isPersistent then (a, true)
  else if now - a.startTime ≥ a.duration then ({ a with isFinished := true }, false)
  else (a, true)

/-- DataArtery.fadeOut: start the fade unless already fading or finished. -/
def fadeOut (now : Int) (a : ArteryState) : ArteryState :=
  if a.isFadingOut || a.isFinished then a
  else { a with isFadingOut := true, fadeOutStart := now }

end ArteryState

/-- One element of the ArteryManager's activeArteries set. -/
structure ActiveArtery where
  artery : ArteryState
  path : String
deriving DecidableEq

/-- The ArteryManager's mutable state.  The JS `Set<ActiveArtery>` iterates
in insertion order and is modelled as a list; `Map<string, number>` as an
insertion-ordered association list.  The THREE.Scene is rendering-only. -/
structure ManagerState where
  activeArteries : List ActiveArtery
  debounceTimers : List (String × Int)
  maxArteries : Nat
  debounceMs : Int
  streamingArtery : Option ArteryState
  streamingPath : Option String
  isStreaming : Bool
deriving DecidableEq

namespace ManagerState

/-- The ArteryManager constructor: `maxArteries ?? 20`, `debounceMs ?? 500`,
empty collections, no stream. -/
def init (maxArteries : Nat) (debounceMs : Int) : ManagerState :=
  { activeArteries := [], debounceTimers := [], maxArteries := maxArteries
    debounceMs := debounceMs, streamingArtery := none, streamingPath := none
    isStreaming := false }

/-- JS `Map.prototype.get`. -/
def getTimer (timers : List (String × Int)) (path : String) : Option Int :=
  (timers.find? (fun kv => kv.1 = path)).map Prod.snd

/-- JS `Map.prototype.set`: replace in place if present, else append. -/
def setTimer (timers : List (String × Int)) (path : String) (now : Int) : List (String × Int) :=
  if timers.any (fun kv => kv.1 = path) then
    timers.map (fun kv => if kv.1 = path then (path, now) else kv)
  else timers ++ [(path, now)]

/-- The debounce test at the top of spawnArtery:
`lastSpawn && now - lastSpawn < this.debounceMs`.  A stored timestamp of 0
is falsy in JS and skips the debounce, hence the `t ≠ 0` conjunct. -/
def debounceHit (s : ManagerState) (now : Int) (path : String) : Bool :=
  match getTimer s.debounceTimers path with
  | some t => decide (t ≠ 0 ∧ now - t < s.debounceMs)
  | none => false

/-- The capacity check inside spawnArtery: when at or above capacity, remove
the first (oldest, insertion-order) entry of the set; `values().next().value`
is `undefined` on an empty set and nothing is removed then. -/
def evictIfFull (s : ManagerState) : ManagerState :=
  if s.activeArteries.length ≥ s.maxArteries then
    match s.activeArteries.head? with
    | some _ => { s with activeArteries := s.activeArteries.tail }
    | none => s
  else s

/-- ArteryManager.spawnArtery (start/end points and color are rendering-only
and omitted): debounce per path, evict the single oldest entry when at
capacity, record the debounce timestamp, append the new 3000 ms transient
artery.  Returns the created artery, or none when debounced. -/
def spawnArtery (now : Int) (path : String) (s : ManagerState) :
    ManagerState × Option ArteryState :=
  if debounceHit s now path then (s, none)
  else
    let afterEvict : ManagerState := evictIfFull s
    let artery := ArteryState.create now 3000 false
    ({ afterEvict with
        debounceTimers := setTimer afterEvict.debounceTimers path now
        activeArteries := afterEvict.activeArteries ++ [{ artery := artery, path := path }] },
     some artery)

/-- ArteryManager.update: advance the streaming artery (result ignored),
advance every active artery and drop the ones that report inactive. -/
def update (now : Int) (s : ManagerState) : ManagerState :=
  { s with
    streamingArtery := s.streamingArtery.map (fun a => (a.update now).1)
    activeArteries := s.activeArteries.filterMap (fun e =>
      let r := e.artery.update now
      if r.2 then some { e with artery := r.1 } else none) }

/-- The parked-entry path in stopStream: `this.streamingPath || 'stream'`.
JS `||` falls back both on null and on the falsy empty string. -/
def pathOrStream (p : Option String) : String :=
  match p with
  | some q => if q = "" then "stream" else q
  | none => "stream"

/-- ArteryManager.stopStream: fade the streaming artery out, move it into the
activeArteries set (with no capacity check) and clear the streaming state;
no-op when no stream is active. -/
def stopStream (now : Int) (s : ManagerState) : ManagerState :=
  match s.streamingArtery with
  | some a =>
    { s with
      activeArteries :=
        s.activeArteries ++ [{ artery := a.fadeOut now, path := pathOrStream s.streamingPath }]
      streamingArtery := none, streamingPath := none, isStreaming := false }
  | none => s

/-- ArteryManager.startStream: no-op when already streaming to this path,
otherwise stop any existing stream and create a fresh persistent artery. -/
def startStream (now : Int) (path : String) (s : ManagerState) : ManagerState :=
  if s.streamingPath = some path ∧ s.streamingArtery.isSome = true then s
  else
    let s1 := stopStream now s
    { s1 with
      streamingArtery := some (ArteryState.create now 5000 true)
      streamingPath := some path, isStreaming := true }

/-- ArteryManager.getIsStreaming. -/
def getIsStreaming (s : ManagerState) : Bool := s.isStreaming

/-- ArteryManager.getStreamingPath. -/
def getStreamingPath (s : ManagerState) : Option String := s.streamingPath

/-- ArteryManager.getCityState: streaming takes precedence, then the count of
active arteries classifies 0 / ≥5 / otherwise. -/
def getCityState (s : ManagerState) : CityState :=
  if s.isStreaming then CityState.STREAMING
  else
    let count := s.activeArteries.length
    if count = 0 then CityState.IDLE
    else if count ≥ 5 then CityState.BULK_UPDATE
    else CityState.STREAMING

/-- ArteryManager.dispose: dispose and clear the activeArteries set and the
debounce timers.  The streamingArtery / streamingPath / isStreaming fields
are not touched by the source. -/
def dispose (s : ManagerState) : ManagerState :=
  { s with activeArteries := [], debounceTimers := [] }

end ManagerState

/-- States of the ArteryManager reachable from the constructor by any
sequence of its public operations, at arbitrary call times. -/
inductive Reachable : ManagerState → Prop
  | init (maxArteries : Nat) (debounceMs : Int) :
      Reachable (ManagerState.init maxArteries debounceMs)
  | spawn (now : Int) (path : String) {s : ManagerState} :
      Reachable s → Reachable (ManagerState.spawnArtery now path s).1
  | tick (now : Int) {s : ManagerState} :
      Reachable s → Reachable (ManagerState.update now s)
  | start (now : Int) (path : String) {s : ManagerState} :
      Reachable s → Reachable (ManagerState.startStream now path s)
  | stop (now : Int) {s : ManagerState} :
      Reachable s → Reachable (ManagerState.stopStream now s)
  | disposed {s : ManagerState} :
      Reachable s → Reachable (ManagerState.dispose s)

/-- A persistent artery that is neither fading out nor finished — the spec's
"simultaneously ACTIVE (non-fading) persistent event". -/
def arteryLivePersistent (a : ArteryState) : Bool :=
  a.isPersistent && !a.isFadingOut && !a.isFinished

/-- Number of live (non-fading, non-finished) persistent arteries in the
whole system: the streaming slot plus the activeArteries set. -/
def persistentActiveCount (s : ManagerState) : Nat :=
  (match s.streamingArtery with
   | some a => if arteryLivePersistent a then 1 else 0
   | none => 0) +
  s.activeArteries.countP (fun e => arteryLivePersistent e.artery)

/-- Structural invariant of the manager: every persistent artery parked in
the activeArteries set is already fading or finished; the streaming slot, if
occupied, holds a live persistent artery; the isStreaming flag and the
streamingPath mirror occupancy of the streaming slot. -/
def ManagerInv (s : ManagerState) : Prop :=
  (∀ e ∈ s.activeArteries, e.artery.isPersistent = true →
     e.artery.isFadingOut = true ∨ e.artery.isFinished = true) ∧
  (∀ a, s.streamingArtery = some a →
     a.isPersistent = true ∧ a.isFadingOut = false ∧ a.isFinished = false) ∧
  s.isStreaming = s.streamingArtery.isSome ∧
  s.streamingPath.isSome = s.streamingArtery.isSome

/-- DataArtery.update never changes the isPersistent flag. -/
theorem ArteryState.update_isPersistent (now : Int) (a : ArteryState) :
    ((a.update now).1).isPersistent = a.isPersistent := by
  unfold ArteryState.update
  repeat' split
  all_goals rfl

/-- An artery that is already fading or finished stays fading or finished
through update. -/
theorem ArteryState.update_preserves_faded (now : Int) (a : ArteryState)
    (h : a.isFadingOut = true ∨ a.isFinished = true) :
    ((a.update now).1).isFadingOut = true ∨ ((a.update now).1).isFinished = true := by
  unfold ArteryState.update
  repeat' split <;> simp_all

/-- A live persistent artery is returned unchanged (and active) by update. -/
theorem ArteryState.update_live_persistent (now : Int) {a : ArteryState}
    (hp : a.isPersistent = true) (hf : a.isFadingOut = false) (hd : a.isFinished = false) :
    a.update now = (a, true) := by
  unfold ArteryState.update
  simp [hp, hf, hd]

/-- fadeOut on a live artery sets the fading flag and records the fade start. -/
theorem ArteryState.fadeOut_sets_flag (now : Int) {a : ArteryState}
    (hf : a.isFadingOut = false) (hd : a.isFinished = false) :
    a.fadeOut now = { a with isFadingOut := true, fadeOutStart := now } := by
  unfold ArteryState.fadeOut
  simp [hf, hd]

/-- A fading, non-finished artery reports inactive once the 500 ms fade
window has elapsed. -/
theorem ArteryState.update_fade_done (now : Int) {a : ArteryState}
    (hf : a.isFadingOut = true) (hd : a.isFinished = false)
    (h : ArteryState.fadeOutDuration ≤ now - a.fadeOutStart) :
    (a.update now).2 = false := by
  unfold ArteryState.update
  simp [hf, hd, h]

/-- evictIfFull only drops elements of the activeArteries list. -/
theorem ManagerState.evictIfFull_mem {s : ManagerState} {e : ActiveArtery}
    (h : e ∈ (ManagerState.evictIfFull s).activeArteries) : e ∈ s.activeArteries := by
  unfold ManagerState.evictIfFull at h
  split at h
  · split at h
    · exact List.mem_of_mem_tail h
    · exact h
  · exact h

/-- evictIfFull changes no field other than activeArteries. -/
theorem ManagerState.evictIfFull_eq (s : ManagerState) :
    ManagerState.evictIfFull s =
      { s with activeArteries := (ManagerState.evictIfFull s).activeArteries } := by
  unfold ManagerState.evictIfFull
  split
  · split <;> rfl
  · rfl

/-- After eviction there is room for one more element below the larger of
the previous size and the capacity (provided the capacity is positive). -/
theorem ManagerState.evictIfFull_length_bound {s : ManagerState} (h : 1 ≤ s.maxArteries) :
    (ManagerState.evictIfFull s).activeArteries.length + 1 ≤
      max s.activeArteries.length s.maxArteries := by
  unfold ManagerState.evictIfFull
  split
  · rename_i hfull
    split
    · rename_i a ha
      have hne : s.activeArteries ≠ [] := by
        intro h0
        rw [h0] at ha
        simp at ha
      have hlen : 1 ≤ s.activeArteries.length := List.length_pos.mpr hne
      have hmax := le_max_left s.activeArteries.length s.maxArteries
      simp only [List.length_tail]
      omega
    · rename_i ha
      have : s.activeArteries = [] := by
        cases hl : s.activeArteries with
        | nil => rfl
        | cons x xs => rw [hl] at ha; simp at ha
      rw [this] at hfull
      simp at hfull
      omega
  · rename_i hnot
    have hmax := le_max_right s.activeArteries.length s.maxArteries
    omega

/-- The manager invariant holds in the constructor state. -/
theorem managerInv_init (maxA : Nat) (debMs : Int) :
    ManagerInv (ManagerState.init maxA debMs) := by
  refine ⟨?_, ?_, rfl, rfl⟩
  · intro e he
    simp [ManagerState.init] at he
  · intro a ha
    simp [ManagerState.init] at ha

/-- spawnArtery preserves the manager invariant: the appended artery is
transient and the streaming slot is untouched. -/
theorem managerInv_spawn (now : Int) (path : String) {s : ManagerState} (h : ManagerInv s) :
    ManagerInv (ManagerState.spawnArtery now path s).1 := by
  obtain ⟨h1, h2, h3, h4⟩ := h
  unfold ManagerState.spawnArtery
  split
  · exact ⟨h1, h2, h3, h4⟩
  · rw [ManagerState.evictIfFull_eq s]
    refine ⟨?_, h2, h3, h4⟩
    intro e he hp
    rcases List.mem_append.mp he with hm | hm
    · exact h1 e (ManagerState.evictIfFull_mem hm) hp
    · simp only [List.mem_singleton] at hm
      subst hm
      simp [ArteryState.create] at hp

/-- update preserves the manager invariant: parked persistent arteries stay
faded, the live streaming artery is returned unchanged. -/
theorem managerInv_update (now : Int) {s : ManagerState} (h : ManagerInv s) :
    ManagerInv (ManagerState.update now s) := by
  obtain ⟨h1, h2, h3, h4⟩ := h
  refine ⟨?_, ?_, ?_, ?_⟩
  · intro e he hp
    simp only [ManagerState.update] at he
    rw [List.mem_filterMap] at he
    obtain ⟨e0, he0, hf⟩ := he
    split at hf
    · rename_i hact
      simp only [Option.some.injEq] at hf
      subst hf
      have hper : e0.artery.isPersistent = true := by
        rw [← ArteryState.update_isPersistent now e0.artery]
        exact hp
      exact ArteryState.update_preserves_faded now e0.artery (h1 e0 he0 hper)
    · simp at hf
  · intro a ha
    simp only [ManagerState.update] at ha
    rw [Option.map_eq_some'] at ha
    obtain ⟨a0, ha0, heq⟩ := ha
    obtain ⟨hp, hf, hd⟩ := h2 a0 ha0
    rw [ArteryState.update_live_persistent now hp hf hd] at heq
    rw [← heq]
    exact ⟨hp, hf, hd⟩
  · simp only [ManagerState.update]
    cases hs : s.streamingArtery <;> simp_all
  · simp only [ManagerState.update]
    cases hs : s.streamingArtery <;> simp_all

/-- stopStream preserves the manager invariant: the parked artery has been
faded first. -/
theorem managerInv_stop (now : Int) {s : ManagerState} (h : ManagerInv s) :
    ManagerInv (ManagerState.stopStream now s) := by
  obtain ⟨h1, h2, h3, h4⟩ := h
  unfold ManagerState.stopStream
  split
  · rename_i a ha
    obtain ⟨hp, hf, hd⟩ := h2 a ha
    refine ⟨?_, ?_, rfl, rfl⟩
    · intro e he hpp
      rcases List.mem_append.mp he with hm | hm
      · exact h1 e hm hpp
      · simp only [List.mem_singleton] at hm
        subst hm
        left
        rw [ArteryState.fadeOut_sets_flag now hf hd]
    · intro a' ha'
      simp at ha'
  · exact ⟨h1, h2, h3, h4⟩

/-- startStream preserves the manager invariant: the fresh streaming artery
is live persistent and the old one has been faded by stopStream. -/
theorem managerInv_start (now : Int) (path : String) {s : ManagerState} (h : ManagerInv s) :
    ManagerInv (ManagerState.startStream now path s) := by
  unfold ManagerState.startStream
  split
  · exact h
  · obtain ⟨h1, h2, h3, h4⟩ := managerInv_stop now h
    refine ⟨h1, ?_, rfl, rfl⟩
    intro a ha
    simp only [Option.some.injEq] at ha
    rw [← ha]
    exact ⟨rfl, rfl, rfl⟩

/-- dispose preserves the manager invariant (it empties the set and leaves
the streaming slot as it was). -/
theorem managerInv_dispose {s : ManagerState} (h : ManagerInv s) :
    ManagerInv (ManagerState.dispose s) := by
  obtain ⟨h1, h2, h3, h4⟩ := h
  refine ⟨?_, h2, h3, h4⟩
  intro e he
  simp [ManagerState.dispose] at he

/-- Every reachable manager state satisfies the invariant. -/
theorem manager_inv {s : ManagerState} (h : Reachable s) : ManagerInv s := by
  induction h with
  | init maxA debMs => exact managerInv_init maxA debMs
  | spawn now path _ ih => exact managerInv_spawn now path ih
  | tick now _ ih => exact managerInv_update now ih
  | start now path _ ih => exact managerInv_start now path ih
  | stop now _ ih => exact managerInv_stop now ih
  | disposed _ ih => exact managerInv_dispose ih

/-- Under the invariant there is at most one live persistent artery in the
whole system. -/
theorem persistentActiveCount_le_one {s : ManagerState} (h : ManagerInv s) :
    persistentActiveCount s ≤ 1 := by
  obtain ⟨h1, h2, _, _⟩ := h
  have hzero : s.activeArteries.countP (fun e => arteryLivePersistent e.artery) = 0 := by
    rw [List.countP_eq_zero]
    intro e he hlive
    simp only [arteryLivePersistent, Bool.and_eq_true, Bool.not_eq_true'] at hlive
    obtain ⟨⟨hp, hf⟩, hd⟩ := hlive
    rcases h1 e he hp with hbad | hbad
    · rw [hf] at hbad
      cases hbad
    · rw [hd] at hbad
      cases hbad
  unfold persistentActiveCount
  rw [hzero]
  cases hs : s.streamingArtery with
  | none => simp
  | some a => split <;> (try split) <;> simp

/-- Equation for stopStream when a stream is active. -/
theorem ManagerState.stopStream_some (now : Int) (s : ManagerState) (a : ArteryState)
    (ha : s.streamingArtery = some a) :
    ManagerState.stopStream now s =
      { s with
        activeArteries :=
          s.activeArteries ++ [⟨a.fadeOut now, ManagerState.pathOrStream s.streamingPath⟩]
        streamingArtery := none, streamingPath := none, isStreaming := false } := by
  unfold ManagerState.stopStream
  rw [ha]

/-- Equation for startStream when it is not a no-op. -/
theorem ManagerState.startStream_ne (now : Int) (path : String) (s : ManagerState)
    (h : ¬(s.streamingPath = some path ∧ s.streamingArtery.isSome = true)) :
    ManagerState.startStream now path s =
      { ManagerState.stopStream now s with
        streamingArtery := some (ArteryState.create now 5000 true)
        streamingPath := some path, isStreaming := true } := by
  unfold ManagerState.startStream
  rw [if_neg h]

/-- startStream always leaves the given path as the streaming path. -/
theorem ManagerState.startStream_path (now : Int) (path : String) (s : ManagerState) :
    (ManagerState.startStream now path s).streamingPath = some path := by
  unfold ManagerState.startStream
  split
  · rename_i hc
    exact hc.1
  · rfl

/-- startStream always leaves the streaming slot occupied. -/
theorem ManagerState.startStream_some (now : Int) (path : String) (s : ManagerState) :
    (ManagerState.startStream now path s).streamingArtery.isSome = true := by
  unfold ManagerState.startStream
  split
  · rename_i hc
    exact hc.2
  · rfl

/-- C2: in every reachable manager state at most one persistent non-fading
artery exists system-wide; startStream for the currently streamed path is a
no-op; after two startStream calls the bound still holds; and when the two
paths differ, the first stream's artery sits in the transient set with its
fadeOut flag applied, parked under `p1 || 'stream'` (the source's fallback
kicks in for the falsy empty-string path). -/
theorem arteryManager_persistent_singleton {s : ManagerState} (hs : Reachable s) :
    persistentActiveCount s ≤ 1 ∧
    (∀ now path, s.streamingPath = some path → s.streamingArtery.isSome = true →
       ManagerState.startStream now path s = s) ∧
    (∀ t1 p1 t2 p2,
       persistentActiveCount
         (ManagerState.startStream t2 p2 (ManagerState.startStream t1 p1 s)) ≤ 1) ∧
    (∀ t1 p1 t2 p2, p1 ≠ p2 →
       ∃ e ∈ (ManagerState.startStream t2 p2
                (ManagerState.startStream t1 p1 s)).activeArteries,
         e.artery.isPersistent = true ∧ e.artery.isFadingOut = true ∧
           e.path = ManagerState.pathOrStream (some p1)) := by
  refine ⟨persistentActiveCount_le_one (manager_inv hs), ?_, ?_, ?_⟩
  · intro now path hp hsome
    unfold ManagerState.startStream
    rw [if_pos ⟨hp, hsome⟩]
  · intro t1 p1 t2 p2
    exact persistentActiveCount_le_one
      (manager_inv (Reachable.start t2 p2 (Reachable.start t1 p1 hs)))
  · intro t1 p1 t2 p2 hne
    have hpath : (ManagerState.startStream t1 p1 s).streamingPath = some p1 :=
      ManagerState.startStream_path t1 p1 s
    have hsome : (ManagerState.startStream t1 p1 s).streamingArtery.isSome = true :=
      ManagerState.startStream_some t1 p1 s
    obtain ⟨a, ha⟩ := Option.isSome_iff_exists.mp hsome
    obtain ⟨_, h2, _, _⟩ := manager_inv (Reachable.start t1 p1 hs)
    obtain ⟨hp, hf, hd⟩ := h2 a ha
    have hcond : ¬((ManagerState.startStream t1 p1 s).streamingPath = some p2 ∧
        (ManagerState.startStream t1 p1 s).streamingArtery.isSome = true) := by
      intro hcon
      rw [hpath] at hcon
      exact hne (Option.some.inj hcon.1)
    refine ⟨⟨a.fadeOut t2, ManagerState.pathOrStream (some p1)⟩, ?_, ?_, ?_, rfl⟩
    · rw [ManagerState.startStream_ne t2 p2 _ hcond,
        ManagerState.stopStream_some t2 _ a ha, hpath]
      exact List.mem_append_right _ (List.mem_singleton.mpr rfl)
    · rw [ArteryState.fadeOut_sets_flag t2 hf hd]
      exact hp
    · rw [ArteryState.fadeOut_sets_flag t2 hf hd]

/-- Witness for C2 at concrete inputs. -/
theorem arteryManager_persistent_singleton_witness :
    persistentActiveCount (ManagerState.init 20 500) ≤ 1 ∧
    persistentActiveCount
      (ManagerState.startStream 1000 "b"
        (ManagerState.startStream 0 "a" (ManagerState.init 20 500))) ≤ 1 ∧
    (∃ e ∈ (ManagerState.startStream 1000 "b"
              (ManagerState.startStream 0 "a" (ManagerState.init 20 500))).activeArteries,
       e.artery.isPersistent = true ∧ e.artery.isFadingOut = true ∧
         e.path = ManagerState.pathOrStream (some "a")) :=
  ⟨(arteryManager_persistent_singleton (Reachable.init 20 500)).1,
   (arteryManager_persistent_singleton (Reachable.init 20 500)).2.2.1 0 "a" 1000 "b",
   (arteryManager_persistent_singleton (Reachable.init 20 500)).2.2.2 0 "a" 1000 "b"
     (by decide)⟩

/-- C6: the derived city state is the claimed pure function of streaming
presence and the live transient count, in every reachable state (where the
isStreaming flag agrees with streaming-slot occupancy). -/
theorem arteryManager_city_state {s : ManagerState} (hs : Reachable s) :
    (s.streamingArtery.isSome = true → ManagerState.getCityState s = CityState.STREAMING) ∧
    (s.streamingArtery = none →
      ((s.activeArteries.length = 0 → ManagerState.getCityState s = CityState.IDLE) ∧
       (1 ≤ s.activeArteries.length → s.activeArteries.length ≤ 4 →
          ManagerState.getCityState s = CityState.STREAMING) ∧
       (5 ≤ s.activeArteries.length →
          ManagerState.getCityState s = CityState.BULK_UPDATE))) := by
  obtain ⟨_, _, h3, _⟩ := manager_inv hs
  constructor
  · intro hsome
    have hst : s.isStreaming = true := by rw [h3, hsome]
    simp [ManagerState.getCityState, hst]
  · intro hnone
    have hst : s.isStreaming = false := by rw [h3, hnone]; rfl
    refine ⟨?_, ?_, ?_⟩
    · intro h0
      simp [ManagerState.getCityState, hst, h0]
    · intro hge hle
      have hne : ¬ s.activeArteries.length = 0 := by omega
      have hlt : ¬ s.activeArteries.length ≥ 5 := by omega
      simp [ManagerState.getCityState, hst, hne, hlt]
    · intro hge
      have hne : ¬ s.activeArteries.length = 0 := by omega
      simp [ManagerState.getCityState, hst, hne, hge]

/-- Witness for C6: the freshly constructed manager is IDLE. -/
theorem arteryManager_city_state_witness :
    ManagerState.getCityState (ManagerState.init 20 500) = CityState.IDLE :=
  ((arteryManager_city_state (Reachable.init 20 500)).2 rfl).1 rfl

/-- Equation for spawnArtery when the debounce test passes (not debounced). -/
theorem ManagerState.spawnArtery_not_debounced (now : Int) (path : String) (s : ManagerState)
    (h : ManagerState.debounceHit s now path = false) :
    ManagerState.spawnArtery now path s =
      ({ ManagerState.evictIfFull s with
          debounceTimers :=
            ManagerState.setTimer (ManagerState.evictIfFull s).debounceTimers path now
          activeArteries := (ManagerState.evictIfFull s).activeArteries ++
            [⟨ArteryState.create now 3000 false, path⟩] },
       some (ArteryState.create now 3000 false)) := by
  unfold ManagerState.spawnArtery
  rw [if_neg (by simp [h])]

/-- Equation for spawnArtery when the call is debounced: pure no-op. -/
theorem ManagerState.spawnArtery_debounced (now : Int) (path : String) (s : ManagerState)
    (h : ManagerState.debounceHit s now path = true) :
    ManagerState.spawnArtery now path s = (s, none) := by
  unfold ManagerState.spawnArtery
  rw [if_pos h]

/-- Equation for evictIfFull at (or above) a positive capacity: drop the
oldest entry. -/
theorem ManagerState.evictIfFull_full {s : ManagerState}
    (hfull : s.maxArteries ≤ s.activeArteries.length) (hpos : 1 ≤ s.maxArteries) :
    ManagerState.evictIfFull s = { s with activeArteries := s.activeArteries.tail } := by
  unfold ManagerState.evictIfFull
  rw [if_pos (by omega : s.activeArteries.length ≥ s.maxArteries)]
  cases hl : s.activeArteries with
  | nil =>
    rw [hl] at hfull
    simp at hfull
    omega
  | cons x xs => simp [hl]

/-- Trace at the capacity cap: a persistent stream plus 20 distinct spawned
transients (the default cap), before stopping the stream. -/
def capTraceFull : ManagerState :=
  (List.range 20).foldl
    (fun s i => (ManagerState.spawnArtery 1000 (toString i) s).1)
    (ManagerState.startStream 0 "proj" (ManagerState.init 20 500))

/-- C3 counterexample: with the live transient set at the default cap of 20,
stopStream pushes the fading persistent artery into the set with no capacity
check, leaving 21 > 20 live transient entries after an operation of the
manager. -/
theorem arteryManager_cap_exceeded :
    (ManagerState.stopStream 2000 capTraceFull).activeArteries.length = 21 ∧
    (ManagerState.stopStream 2000 capTraceFull).maxArteries = 20 := by decide

/-- C3 amended: a non-debounced trigger arriving at or above a positive
capacity removes exactly the oldest (FIFO head) live transient entry
immediately — it is dropped, not faded — and appends the new event, leaving
the size unchanged; in general spawnArtery keeps the size at or below the
larger of the previous size and the cap; stopStream, however, re-inserts the
fading persistent artery without any capacity check and grows the live set
by one. -/
theorem arteryManager_eviction_amended (s : ManagerState) (now : Int) (path : String) :
    (ManagerState.debounceHit s now path = false →
       s.maxArteries ≤ s.activeArteries.length → 1 ≤ s.maxArteries →
       (ManagerState.spawnArtery now path s).1.activeArteries =
         s.activeArteries.tail ++ [⟨ArteryState.create now 3000 false, path⟩] ∧
       (ManagerState.spawnArtery now path s).1.activeArteries.length =
         s.activeArteries.length) ∧
    (1 ≤ s.maxArteries →
       (ManagerState.spawnArtery now path s).1.activeArteries.length ≤
         max s.activeArteries.length s.maxArteries) ∧
    (∀ a, s.streamingArtery = some a →
       (ManagerState.stopStream now s).activeArteries.length =
         s.activeArteries.length + 1) := by
  refine ⟨?_, ?_, ?_⟩
  · intro hnd hfull hpos
    rw [ManagerState.spawnArtery_not_debounced now path s hnd,
      ManagerState.evictIfFull_full hfull hpos]
    have hne : s.activeArteries ≠ [] := by
      intro h0
      rw [h0] at hfull
      simp at hfull
      omega
    have hlen : 1 ≤ s.activeArteries.length := List.length_pos.mpr hne
    constructor
    · rfl
    · simp only [List.length_append, List.length_tail, List.length_singleton]
      omega
  · intro hpos
    cases hd : ManagerState.debounceHit s now path with
    | true =>
      rw [ManagerState.spawnArtery_debounced now path s hd]
      exact le_max_left _ _
    | false =>
      rw [ManagerState.spawnArtery_not_debounced now path s hd]
      have := ManagerState.evictIfFull_length_bound (s := s) hpos
      simp only [List.length_append, List.length_singleton]
      omega
  · intro a ha
    rw [ManagerState.stopStream_some now s a ha]
    simp

/-- Witness for the amended C3 at the concrete capacity trace. -/
theorem arteryManager_eviction_amended_witness :
    ((ManagerState.spawnArtery 5000 "x" capTraceFull).1.activeArteries.length =
       capTraceFull.activeArteries.length) ∧
    ((ManagerState.spawnArtery 5000 "x" capTraceFull).1.activeArteries.length ≤
       max capTraceFull.activeArteries.length capTraceFull.maxArteries) ∧
    (ManagerState.stopStream 5000 capTraceFull).activeArteries.length =
      capTraceFull.activeArteries.length + 1 :=
  ⟨((arteryManager_eviction_amended capTraceFull 5000 "x").1
      (by decide) (by decide) (by decide)).2,
   (arteryManager_eviction_amended capTraceFull 5000 "x").2.1 (by decide),
   (arteryManager_eviction_amended capTraceFull 5000 "x").2.2
     (ArteryState.create 0 5000 true) (by decide)⟩

/-- find? after an in-place Map.set hit: the replaced binding is found. -/
theorem find_set_of_any (path : String) (now : Int) :
    ∀ timers : List (String × Int), timers.any (fun kv => kv.1 = path) = true →
      (timers.map (fun kv => if kv.1 = path then (path, now) else kv)).find?
        (fun kv => kv.1 = path) = some (path, now) := by
  intro timers
  induction timers with
  | nil => intro h; simp at h
  | cons kv rest ih =>
    intro h
    by_cases hk : kv.1 = path
    · simp [List.find?, hk]
    · simp only [List.map_cons, if_neg hk]
      rw [List.find?_cons_of_neg _ (by simp [hk])]
      apply ih
      simp only [List.any_cons, Bool.or_eq_true] at h
      rcases h with h | h
      · simp [hk] at h
      · exact h

/-- find? after a Map.set append: the appended binding is found when the key
was absent. -/
theorem find_set_of_not_any (path : String) (now : Int) :
    ∀ timers : List (String × Int), timers.any (fun kv => kv.1 = path) = false →
      (timers ++ [(path, now)]).find? (fun kv => kv.1 = path) = some (path, now) := by
  intro timers
  induction timers with
  | nil => simp [List.find?]
  | cons kv rest ih =>
    intro h
    simp only [List.any_cons, Bool.or_eq_false_iff] at h
    obtain ⟨hk, hrest⟩ := h
    rw [List.cons_append, List.find?_cons_of_neg _ (by simp_all)]
    exact ih hrest

/-- Map.set followed by Map.get on the same key returns the stored value. -/
theorem ManagerState.getTimer_setTimer (timers : List (String × Int)) (path : String)
    (now : Int) :
    ManagerState.getTimer (ManagerState.setTimer timers path now) path = some now := by
  unfold ManagerState.setTimer ManagerState.getTimer
  split
  · rename_i hany
    rw [find_set_of_any path now timers hany]
    rfl
  · rename_i hany
    have hfalse : timers.any (fun kv => kv.1 = path) = false := by
      cases h2 : timers.any (fun kv => kv.1 = path) with
      | false => rfl
      | true => exact absurd h2 hany
    rw [find_set_of_not_any path now timers hfalse]
    rfl

/-- C5: per-target debounce.  A successful (non-debounced) spawn at a
positive time t1 makes any second spawn for the same path within the
debounce window a pure no-op returning none, while a spawn spaced at least
the window after t1 creates an event again. -/
theorem arteryManager_debounce (s : ManagerState) (t1 t2 t3 : Int) (path : String)
    (h0 : 0 < t1)
    (hnd : ManagerState.debounceHit s t1 path = false)
    (hwin : t2 - t1 < s.debounceMs)
    (hgap : s.debounceMs ≤ t3 - t1) :
    (ManagerState.spawnArtery t1 path s).2.isSome = true ∧
    ManagerState.spawnArtery t2 path (ManagerState.spawnArtery t1 path s).1 =
      ((ManagerState.spawnArtery t1 path s).1, none) ∧
    (ManagerState.spawnArtery t3 path (ManagerState.spawnArtery t1 path s).1).2.isSome
      = true := by
  have heq := ManagerState.spawnArtery_not_debounced t1 path s hnd
  have htimer : ManagerState.getTimer
      (ManagerState.spawnArtery t1 path s).1.debounceTimers path = some t1 := by
    rw [heq]
    exact ManagerState.getTimer_setTimer _ path t1
  have hms : (ManagerState.spawnArtery t1 path s).1.debounceMs = s.debounceMs := by
    rw [heq, ManagerState.evictIfFull_eq s]
  have hhit2 : ManagerState.debounceHit (ManagerState.spawnArtery t1 path s).1 t2 path
      = true := by
    unfold ManagerState.debounceHit
    rw [htimer, hms]
    simp only [decide_eq_true_eq]
    exact ⟨by omega, hwin⟩
  have hhit3 : ManagerState.debounceHit (ManagerState.spawnArtery t1 path s).1 t3 path
      = false := by
    unfold ManagerState.debounceHit
    rw [htimer, hms]
    simp only [decide_eq_false_iff_not]
    intro hcon
    omega
  refine ⟨?_, ?_, ?_⟩
  · rw [heq]
    rfl
  · exact ManagerState.spawnArtery_debounced t2 path _ hhit2
  · rw [ManagerState.spawnArtery_not_debounced t3 path _ hhit3]
    rfl

/-- Witness for C5 at concrete times 1, 400, 501 with the default window. -/
theorem arteryManager_debounce_witness :
    (ManagerState.spawnArtery 1 "p" (ManagerState.init 20 500)).2.isSome = true ∧
    ManagerState.spawnArtery 400 "p"
        (ManagerState.spawnArtery 1 "p" (ManagerState.init 20 500)).1 =
      ((ManagerState.spawnArtery 1 "p" (ManagerState.init 20 500)).1, none) ∧
    (ManagerState.spawnArtery 501 "p"
        (ManagerState.spawnArtery 1 "p" (ManagerState.init 20 500)).1).2.isSome = true :=
  arteryManager_debounce (ManagerState.init 20 500) 1 400 501 "p"
    (by decide) (by decide) (by decide) (by decide)

/-- C8: dispose does not release the persistent streaming artery.  After
startStream and dispose, the activeArteries set and the debounce timers are
cleared, but the streaming slot still holds the (undisposed) persistent
artery and the manager still reports itself streaming. -/
theorem arteryManager_dispose_misses_stream :
    (ManagerState.dispose
        (ManagerState.startStream 0 "proj" (ManagerState.init 20 500))).streamingArtery =
      some (ArteryState.create 0 5000 true) ∧
    (ManagerState.dispose
        (ManagerState.startStream 0 "proj" (ManagerState.init 20 500))).isStreaming = true ∧
    (ManagerState.dispose
        (ManagerState.startStream 0 "proj" (ManagerState.init 20 500))).streamingPath =
      some "proj" ∧
    (ManagerState.dispose
        (ManagerState.startStream 0 "proj" (ManagerState.init 20 500))).activeArteries = [] ∧
    (ManagerState.dispose
        (ManagerState.startStream 0 "proj" (ManagerState.init 20 500))).debounceTimers =
      [] := by decide

/-- Trace for the C10 counterexample: a persistent stream plus four live
transients, then stopStream. -/
def stopTraceFive : ManagerState :=
  ManagerState.stopStream 2000
    (["a", "b", "c", "d"].foldl
      (fun s p => (ManagerState.spawnArtery 1000 p s).1)
      (ManagerState.startStream 0 "proj" (ManagerState.init 20 500)))

/-- C10 counterexample: immediately after stopStream the re-inserted fading
artery brings the live count to 5, so getCityState reports BULK_UPDATE, not
STREAMING as the claim states. -/
theorem arteryManager_stop_not_streaming :
    ManagerState.getIsStreaming stopTraceFive = false ∧
    ManagerState.getCityState stopTraceFive = CityState.BULK_UPDATE ∧
    CityState.BULK_UPDATE ≠ CityState.STREAMING := by decide

/-- C10 amended: immediately after stopStream on an active persistent
stream, getIsStreaming is false, getStreamingPath is null, the fading artery
has been re-inserted so the live count grows by one and getCityState is not
IDLE — STREAMING when the resulting count is at most 4, BULK_UPDATE when it
is 5 or more — and once 500 ms have elapsed the fading artery reports
inactive, so a subsequent update removes it (no persistent entry remains
when all prior entries were transient). -/
theorem arteryManager_stop_stream_amended (s : ManagerState) (t : Int) (a : ArteryState)
    (hs : Reachable s) (ha : s.streamingArtery = some a) :
    ManagerState.getIsStreaming (ManagerState.stopStream t s) = false ∧
    ManagerState.getStreamingPath (ManagerState.stopStream t s) = none ∧
    (ManagerState.stopStream t s).activeArteries.length =
      s.activeArteries.length + 1 ∧
    ManagerState.getCityState (ManagerState.stopStream t s) ≠ CityState.IDLE ∧
    (s.activeArteries.length + 1 ≤ 4 →
       ManagerState.getCityState (ManagerState.stopStream t s) = CityState.STREAMING) ∧
    (5 ≤ s.activeArteries.length + 1 →
       ManagerState.getCityState (ManagerState.stopStream t s) = CityState.BULK_UPDATE) ∧
    (∀ now, ArteryState.fadeOutDuration ≤ now - t →
       (∀ e ∈ s.activeArteries, e.artery.isPersistent = false) →
       ∀ e ∈ (ManagerState.update now (ManagerState.stopStream t s)).activeArteries,
         e.artery.isPersistent = false) := by
  obtain ⟨h1, h2, h3, h4⟩ := manager_inv hs
  obtain ⟨hp, hf, hd⟩ := h2 a ha
  have heq := ManagerState.stopStream_some t s a ha
  have hlen : (ManagerState.stopStream t s).activeArteries.length =
      s.activeArteries.length + 1 := by
    rw [heq]
    simp
  have hstream : (ManagerState.stopStream t s).isStreaming = false := by
    rw [heq]
  refine ⟨hstream, by rw [heq]; rfl, hlen, ?_, ?_, ?_, ?_⟩
  · unfold ManagerState.getCityState
    rw [hstream, hlen]
    simp only [if_false, Bool.false_eq_true]
    split
    · omega
    · split <;> simp
  · intro hle
    unfold ManagerState.getCityState
    rw [hstream, hlen]
    have hne : ¬ s.activeArteries.length + 1 = 0 := by omega
    have hlt : ¬ s.activeArteries.length + 1 ≥ 5 := by omega
    simp [hne, hlt]
  · intro hge
    unfold ManagerState.getCityState
    rw [hstream, hlen]
    have hne : ¬ s.activeArteries.length + 1 = 0 := by omega
    simp [hne, hge]
  · intro now hnow htrans e he
    simp only [ManagerState.update] at he
    rw [List.mem_filterMap] at he
    obtain ⟨e0, he0, hfm⟩ := he
    rw [heq] at he0
    split at hfm
    · rename_i hact
      simp only [Option.some.injEq] at hfm
      rcases List.mem_append.mp he0 with hm | hm
      · rw [← hfm]
        have := ArteryState.update_isPersistent now e0.artery
        simp only [this]
        exact htrans e0 hm
      · simp only [List.mem_singleton] at hm
        subst hm
        exfalso
        have hfade : (ArteryState.fadeOut t a).isFadingOut = true := by
          rw [ArteryState.fadeOut_sets_flag t hf hd]
        have hfin : (ArteryState.fadeOut t a).isFinished = false := by
          rw [ArteryState.fadeOut_sets_flag t hf hd]
          exact hd
        have hstart : (ArteryState.fadeOut t a).fadeOutStart = t := by
          rw [ArteryState.fadeOut_sets_flag t hf hd]
        have hdone := ArteryState.update_fade_done now hfade hfin (by rw [hstart]; exact hnow)
        rw [hdone] at hact
        cases hact
    · cases hfm

/-- Witness for the amended C10 at a concrete one-stream trace. -/
theorem arteryManager_stop_stream_amended_witness :
    ManagerState.getIsStreaming
      (ManagerState.stopStream 100
        (ManagerState.startStream 0 "p" (ManagerState.init 20 500))) = false ∧
    ManagerState.getCityState
      (ManagerState.stopStream 100
        (ManagerState.startStream 0 "p" (ManagerState.init 20 500))) =
      CityState.STREAMING :=
  ⟨(arteryManager_stop_stream_amended
      (ManagerState.startStream 0 "p" (ManagerState.init 20 500)) 100
      (ArteryState.create 0 5000 true)
      (Reachable.start 0 "p" (Reachable.init 20 500)) (by decide)).1,
   (arteryManager_stop_stream_amended
      (ManagerState.startStream 0 "p" (ManagerState.init 20 500)) 100
      (ArteryState.create 0 5000 true)
      (Reachable.start 0 "p" (Reachable.init 20 500)) (by decide)).2.2.2.2.1
     (by decide)⟩

/-- The fields of the heartbeat status file that drive the poll logic.
Pass-through payload fields (action, tool, file, stoppedAt) do not affect
the transitions and are omitted. -/
structure ActivityStatus where
  active : Bool
  project : Option String
  lastPing : Int
deriving DecidableEq

/-- The ActivityMonitor's transition state: the idle-timeout configuration
(`options.idleTimeout ?? 10000`), the previously-active flag and the last
seen status.  The poll timer handle is scheduling plumbing, not state the
transitions read. -/
structure MonitorState where
  idleTimeout : Int
  isActive : Bool
  lastStatus : Option ActivityStatus
deriving DecidableEq

/-- The callbacks the monitor can fire during one poll, in order. -/
inductive MonitorEvent
  | start (st : ActivityStatus)
  | update (st : ActivityStatus)
  | stop
  | projectChange (newProject oldProject : Option String)
deriving DecidableEq

namespace MonitorState

/-- ActivityMonitor.transitionToIdle: clear the flags and fire
onActivityStop. -/
def transitionToIdle (m : MonitorState) : MonitorState × List MonitorEvent :=
  ({ m with isActive := false, lastStatus := none }, [MonitorEvent.stop])

/-- ActivityMonitor.poll as a pure transition.  `file` is the parsed status
file, or none when the file is absent, unreadable or unparseable (all three
are `readStatusFile` returning null).  Fires stop on the idle paths only
when previously active; otherwise fires start or update, then projectChange
when the observed project identity changed. -/
def poll (now : Int) (file : Option ActivityStatus) (m : MonitorState) :
    MonitorState × List MonitorEvent :=
  match file with
  | none => if m.isActive then transitionToIdle m else (m, [])
  | some st =>
    if m.idleTimeout < now - st.lastPing ∨ st.active = false then
      if m.isActive then transitionToIdle m else (m, [])
    else
      let wasActive := m.isActive
      let oldProject := match m.lastStatus with
        | some ls => ls.project
        | none => none
      let m' := { m with lastStatus := some st, isActive := true }
      (m', (if wasActive then [MonitorEvent.update st] else [MonitorEvent.start st]) ++
        (if oldProject = st.project then []
         else [MonitorEvent.projectChange st.project oldProject]))

end MonitorState

/-- The idle condition of one poll tick: no readable status, a stale ping
(strictly older than the idle timeout), or an inactive flag. -/
def IdleCondition (m : MonitorState) (now : Int) (file : Option ActivityStatus) : Prop :=
  file = none ∨
  ∃ st, file = some st ∧ (m.idleTimeout < now - st.lastPing ∨ st.active = false)

/-- On an idle poll the monitor fires no events when it was not previously
active, and transitions to the inactive state when it was. -/
theorem poll_idle_cases (m : MonitorState) (now : Int) (file : Option ActivityStatus)
    (h : IdleCondition m now file) :
    MonitorState.poll now file m =
      (if m.isActive then ({ m with isActive := false, lastStatus := none },
          [MonitorEvent.stop])
       else (m, [])) := by
  rcases h with hf | ⟨st, hf, hcond⟩
  · subst hf
    rfl
  · subst hf
    simp only [MonitorState.poll]
    rw [if_pos hcond]
    rfl

/-- C9: the activity adapter fires the stop transition exactly once per
active period.  On a poll satisfying the idle condition, stop fires exactly
when the adapter was previously active; the adapter is inactive afterwards;
an idle poll from the inactive state fires nothing at all; and any further
idle poll after the first fires no events. -/
theorem activityMonitor_idle_stop_once (m : MonitorState) (now : Int)
    (file : Option ActivityStatus) (h : IdleCondition m now file) :
    (MonitorEvent.stop ∈ (MonitorState.poll now file m).2 ↔ m.isActive = true) ∧
    (MonitorState.poll now file m).1.isActive = false ∧
    (m.isActive = false → (MonitorState.poll now file m).2 = []) ∧
    (∀ now2 file2, IdleCondition (MonitorState.poll now file m).1 now2 file2 →
       (MonitorState.poll now2 file2 (MonitorState.poll now file m).1).2 = []) := by
  rw [poll_idle_cases m now file h]
  cases hact : m.isActive with
  | true =>
    refine ⟨by simp, by simp, by simp, ?_⟩
    intro now2 file2 h2
    rw [poll_idle_cases _ now2 file2 (by simpa using h2)]
    simp
  | false =>
    refine ⟨by simp, by simp [hact], by simp, ?_⟩
    intro now2 file2 h2
    rw [poll_idle_cases _ now2 file2 (by simpa using h2)]
    simp [hact]

/-- Witness for C9: a previously-active monitor polled against a stale ping
fires stop, and an immediately following idle poll fires nothing. -/
theorem activityMonitor_idle_stop_once_witness :
    (MonitorEvent.stop ∈
      (MonitorState.poll 20000 (some ⟨true, some "p", 0⟩) ⟨10000, true, none⟩).2) ∧
    (MonitorState.poll 25000 (some ⟨true, some "p", 0⟩)
       (MonitorState.poll 20000 (some ⟨true, some "p", 0⟩) ⟨10000, true, none⟩).1).2 = [] := by
  have hidle : IdleCondition ⟨10000, true, none⟩ 20000 (some ⟨true, some "p", 0⟩) :=
    Or.inr ⟨⟨true, some "p", 0⟩, rfl, Or.inl (by decide)⟩
  have hmain := activityMonitor_idle_stop_once ⟨10000, true, none⟩ 20000
    (some ⟨true, some "p", 0⟩) hidle
  refine ⟨hmain.1.mpr rfl, ?_⟩
  apply hmain.2.2.2 25000 (some ⟨true, some "p", 0⟩)
  right
  exact ⟨⟨true, some "p", 0⟩, rfl, Or.inl (by decide)⟩
